import Mathlib

/-
Verification development for the Printalyzer densitometer measurement core.

Shallow embedding conventions:
- C float values are modelled as real numbers.  Where NaN matters to control
  flow, a value is modelled as Option Real with none standing for NaN, and the
  C comparison semantics (every ordered comparison with NaN is false) is made
  explicit in the helper functions below.  Where infinities also matter
  (sensor_apply_slope_calibration), a dedicated CFloat type is used.
- log10f is Real.logb 10, logf is Real.log, expf is Real.exp, and
  powf(10, e) is real rpow.  powf(x, 2.0f) is x ^ 2.
- Hardware constants that live in headers outside src (saturation ceilings
  from tsl2591.h, gain plausibility bounds, the idle light levels from
  light.h) are kept as explicit parameters, since no claim depends on their
  numeric values.
- Calls that touch the light controller are recorded in an event trace so
  that claims about light handling on exit paths can be stated.
-/

noncomputable section

open Real Classical

/-- Result codes of the densitometer procedures, from densitometer.h usage in
densitometer.c. -/
inductive DensitometerResult
  | ok
  | calError
  | sensorError
  deriving DecidableEq

/-- Outcome of the blocking sensor_read call as seen by densitometer.c: either
a pair of averaged basic counts or a HAL failure. -/
inductive SensorReadOutcome
  | ok (ch0 ch1 : ℝ)
  | fail

/-- Commands sent to the light controller, light_set_reflection and
light_set_transmission, with their brightness argument. -/
inductive LightCmd
  | reflection (level : ℕ)
  | transmission (level : ℕ)
  deriving DecidableEq

/-- Final light controller state after replaying a trace of commands from a
given initial (reflection, transmission) brightness pair. -/
def light_state_after (init : ℕ × ℕ) (trace : List LightCmd) : ℕ × ℕ :=
  trace.foldl
    (fun s c =>
      match c with
      | LightCmd.reflection l => (l, s.2)
      | LightCmd.transmission l => (s.1, l))
    init

/-- Embedding of the repeated fragment of densitometer.c: if ch1 is at least
ch0 then ch1 is clamped to zero, and the measured value is ch0 minus the
(possibly clamped) ch1. -/
def clamped_diff (ch0 ch1 : ℝ) : ℝ :=
  if ch1 ≥ ch0 then ch0 else ch0 - ch1

/-- Reflection calibration point pair, as read back by
settings_get_cal_reflection_lo and settings_get_cal_reflection_hi. -/
structure ReflectionCal where
  lo_d : ℝ
  lo_value : ℝ
  hi_d : ℝ
  hi_value : ℝ

/-- Transmission calibration values, as read back by
settings_get_cal_transmission_zero and settings_get_cal_transmission_hi. -/
structure TransmissionCal where
  zero_value : ℝ
  hi_d : ℝ
  hi_value : ℝ

/-- Density computation of densitometer_reflection_measure, lines 64 to 74 of
densitometer.c: log-units conversion, slope of the calibration line, then the
interpolated density. -/
def reflection_density (cal : ReflectionCal) (meas_value : ℝ) : ℝ :=
  let meas_ll := Real.logb 10 meas_value
  let cal_hi_ll := Real.logb 10 cal.hi_value
  let cal_lo_ll := Real.logb 10 cal.lo_value
  let m := (cal.hi_d - cal.lo_d) / (cal_hi_ll - cal_lo_ll)
  m * (meas_ll - cal_lo_ll) + cal.lo_d

/-- Density computation of densitometer_transmission_measure, lines 137 to 147
of densitometer.c: measured CAL-HI density relative to zero, measured target
density relative to zero, adjustment factor, corrected density. -/
def transmission_density (cal : TransmissionCal) (meas_value : ℝ) : ℝ :=
  let cal_hi_meas_d := -1 * Real.logb 10 (cal.hi_value / cal.zero_value)
  let meas_d := -1 * Real.logb 10 (meas_value / cal.zero_value)
  let adj_factor := cal.hi_d / cal_hi_meas_d
  meas_d * adj_factor

/-- Embedding of densitometer_reflection_measure from densitometer.c.  The
stored last reading densitometer_reflection_d is passed in and returned
(none models its NAN initial value); the third component is the trace of
light controller commands issued on the taken path.  idle_r stands for
LIGHT_REFLECTION_IDLE, whose numeric value lives in a header outside src. -/
def densitometer_reflection_measure (idle_r : ℕ) (cal : ReflectionCal)
    (sensor : SensorReadOutcome) (last_d : Option ℝ) :
    DensitometerResult × Option ℝ × List LightCmd :=
  if cal.lo_d < 0 ∨ cal.hi_d ≤ cal.lo_d ∨ cal.lo_value < 0 ∨ cal.hi_value ≥ cal.lo_value then
    (DensitometerResult.calError, last_d, [])
  else
    match sensor with
    | SensorReadOutcome.fail =>
        (DensitometerResult.sensorError, last_d,
          [LightCmd.reflection 128, LightCmd.transmission 0, LightCmd.reflection idle_r])
    | SensorReadOutcome.ok ch0 ch1 =>
        (DensitometerResult.ok, some (reflection_density cal (clamped_diff ch0 ch1)),
          [LightCmd.reflection 128, LightCmd.transmission 0, LightCmd.reflection idle_r])

/-- Embedding of densitometer_transmission_measure from densitometer.c, with
the same conventions as the reflection variant.  idle_t stands for
LIGHT_TRANSMISSION_IDLE. -/
def densitometer_transmission_measure (idle_t : ℕ) (cal : TransmissionCal)
    (sensor : SensorReadOutcome) (last_d : Option ℝ) :
    DensitometerResult × Option ℝ × List LightCmd :=
  if cal.zero_value ≤ 0 ∨ cal.hi_d ≤ 0 ∨ cal.hi_value ≤ 0 ∨ cal.hi_value ≥ cal.zero_value then
    (DensitometerResult.calError, last_d, [])
  else
    match sensor with
    | SensorReadOutcome.fail =>
        (DensitometerResult.sensorError, last_d,
          [LightCmd.reflection 0, LightCmd.transmission 128, LightCmd.transmission idle_t])
    | SensorReadOutcome.ok ch0 ch1 =>
        (DensitometerResult.ok, some (transmission_density cal (clamped_diff ch0 ch1)),
          [LightCmd.reflection 0, LightCmd.transmission 128, LightCmd.transmission idle_t])

/-- Initial value of the densitometer_reflection_d global, NAN in the source,
modelled as none. -/
def densitometer_reflection_d_init : Option ℝ := none

/-- Initial value of the densitometer_transmission_d global, NAN in the
source, modelled as none. -/
def densitometer_transmission_d_init : Option ℝ := none

/-- Embedding of densitometer_calibrate_reflection_lo from densitometer.c.
Returns the result code, the calibration pair passed to
settings_set_cal_reflection_lo when one is persisted, and the light command
trace of the taken path.  Note the early calibration-error return on a
measured value below 0.01 issues no further light command. -/
def densitometer_calibrate_reflection_lo (idle_r : ℕ) (cal_lo_d : ℝ)
    (sensor : SensorReadOutcome) :
    DensitometerResult × Option (ℝ × ℝ) × List LightCmd :=
  if cal_lo_d < 0 ∨ cal_lo_d > 2.5 then
    (DensitometerResult.calError, none, [])
  else
    match sensor with
    | SensorReadOutcome.fail =>
        (DensitometerResult.sensorError, none,
          [LightCmd.reflection 128, LightCmd.transmission 0, LightCmd.reflection idle_r])
    | SensorReadOutcome.ok ch0 ch1 =>
        let meas_value := clamped_diff ch0 ch1
        if meas_value < 0.01 then
          (DensitometerResult.calError, none,
            [LightCmd.reflection 128, LightCmd.transmission 0])
        else
          (DensitometerResult.ok, some (cal_lo_d, meas_value),
            [LightCmd.reflection 128, LightCmd.transmission 0, LightCmd.reflection idle_r])

/-- Embedding of densitometer_calibrate_reflection_hi from densitometer.c,
identical in shape to the lo helper. -/
def densitometer_calibrate_reflection_hi (idle_r : ℕ) (cal_hi_d : ℝ)
    (sensor : SensorReadOutcome) :
    DensitometerResult × Option (ℝ × ℝ) × List LightCmd :=
  if cal_hi_d < 0 ∨ cal_hi_d > 2.5 then
    (DensitometerResult.calError, none, [])
  else
    match sensor with
    | SensorReadOutcome.fail =>
        (DensitometerResult.sensorError, none,
          [LightCmd.reflection 128, LightCmd.transmission 0, LightCmd.reflection idle_r])
    | SensorReadOutcome.ok ch0 ch1 =>
        let meas_value := clamped_diff ch0 ch1
        if meas_value < 0.01 then
          (DensitometerResult.calError, none,
            [LightCmd.reflection 128, LightCmd.transmission 0])
        else
          (DensitometerResult.ok, some (cal_hi_d, meas_value),
            [LightCmd.reflection 128, LightCmd.transmission 0, LightCmd.reflection idle_r])

/-- Embedding of densitometer_calibrate_transmission_zero from
densitometer.c; it takes no density argument and persists only the measured
value. -/
def densitometer_calibrate_transmission_zero (idle_t : ℕ)
    (sensor : SensorReadOutcome) :
    DensitometerResult × Option ℝ × List LightCmd :=
  match sensor with
  | SensorReadOutcome.fail =>
      (DensitometerResult.sensorError, none,
        [LightCmd.reflection 0, LightCmd.transmission 128, LightCmd.transmission idle_t])
  | SensorReadOutcome.ok ch0 ch1 =>
      let meas_value := clamped_diff ch0 ch1
      if meas_value < 0.01 then
        (DensitometerResult.calError, none,
          [LightCmd.reflection 0, LightCmd.transmission 128])
      else
        (DensitometerResult.ok, some meas_value,
          [LightCmd.reflection 0, LightCmd.transmission 128, LightCmd.transmission idle_t])

/-- Embedding of densitometer_calibrate_transmission_hi from densitometer.c;
the density argument is validated against the range 0 to 4. -/
def densitometer_calibrate_transmission_hi (idle_t : ℕ) (cal_hi_d : ℝ)
    (sensor : SensorReadOutcome) :
    DensitometerResult × Option (ℝ × ℝ) × List LightCmd :=
  if cal_hi_d < 0 ∨ cal_hi_d > 4 then
    (DensitometerResult.calError, none, [])
  else
    match sensor with
    | SensorReadOutcome.fail =>
        (DensitometerResult.sensorError, none,
          [LightCmd.reflection 0, LightCmd.transmission 128, LightCmd.transmission idle_t])
    | SensorReadOutcome.ok ch0 ch1 =>
        let meas_value := clamped_diff ch0 ch1
        if meas_value < 0.01 then
          (DensitometerResult.calError, none,
            [LightCmd.reflection 0, LightCmd.transmission 128])
        else
          (DensitometerResult.ok, some (cal_hi_d, meas_value),
            [LightCmd.reflection 0, LightCmd.transmission 128, LightCmd.transmission idle_t])

/-- Integration time settings of the TSL2591 sensor, from its driver header. -/
inductive TslTime
  | t100 | t200 | t300 | t400 | t500 | t600
  deriving DecidableEq

/-- One raw sensor reading as consumed by the read loop: the two channel
counts and the integration time it was taken at. -/
structure SensorReading where
  ch0_val : ℕ
  ch1_val : ℕ
  time : TslTime
  deriving DecidableEq

/-- Saturation ceiling selection of sensor_is_reading_saturated in sensor.c:
the analog ceiling for the 100 ms integration setting, the digital ceiling
for every other setting.  The two ceiling values come from tsl2591.h, which
is not under src, so they are kept as parameters. -/
def saturation_limit (analog_sat digital_sat : ℕ) (t : TslTime) : ℕ :=
  if t = TslTime.t100 then analog_sat else digital_sat

/-- Embedding of sensor_is_reading_saturated from sensor.c: a reading is
saturated when either channel count is at or above the applicable ceiling. -/
def sensor_is_reading_saturated (analog_sat digital_sat : ℕ) (r : SensorReading) : Bool :=
  decide (saturation_limit analog_sat digital_sat r.time ≤ r.ch0_val
    ∨ saturation_limit analog_sat digital_sat r.time ≤ r.ch1_val)

/-- Possible outcomes of sensor_raw_read_loop.  paramError is the
osErrorParameter return for a zero count; readError is a failed
sensor_get_next_reading; saturatedNaN is the osOK return that writes NAN to
both outputs after a saturated reading; avg carries the two averaged
results. -/
inductive RawReadOutcome
  | paramError
  | readError
  | saturatedNaN
  | avg (ch0 ch1 : ℝ)

/-- Recursive body of the measurement loop of sensor_raw_read_loop: n
readings remain to be taken from the pending list, with the running
sums of natural logs accumulated so far; total is the constant count used as
the divisor when averaging. -/
def sensor_raw_read_go (analog_sat digital_sat total : ℕ) :
    ℕ → List SensorReading → ℝ → ℝ → RawReadOutcome
  | 0, _, ch0_sum, ch1_sum =>
      RawReadOutcome.avg (Real.exp (ch0_sum / total)) (Real.exp (ch1_sum / total))
  | _ + 1, [], _, _ => RawReadOutcome.readError
  | n + 1, r :: rest, ch0_sum, ch1_sum =>
      if sensor_is_reading_saturated analog_sat digital_sat r then
        RawReadOutcome.saturatedNaN
      else
        sensor_raw_read_go analog_sat digital_sat total n rest
          (ch0_sum + Real.log r.ch0_val) (ch1_sum + Real.log r.ch1_val)

/-- Embedding of sensor_raw_read_loop from sensor.c.  The stream of
successful sensor_get_next_reading results is modelled by the readings list;
running out of list elements models a read failure. -/
def sensor_raw_read_loop (analog_sat digital_sat : ℕ) (count : ℕ)
    (readings : List SensorReading) : RawReadOutcome :=
  if count = 0 then RawReadOutcome.paramError
  else sensor_raw_read_go analog_sat digital_sat count count readings 0 0

/-- Channel 0 average produced by a read loop outcome, as the caller of
sensor_raw_read_loop sees it: none models the NAN written on saturation (and
stands for the untouched output on the error paths, which no caller reads). -/
def raw_read_avg0 : RawReadOutcome → Option ℝ
  | RawReadOutcome.avg a _ => some a
  | _ => none

/-- Channel 1 average produced by a read loop outcome, with the same
conventions as raw_read_avg0. -/
def raw_read_avg1 : RawReadOutcome → Option ℝ
  | RawReadOutcome.avg _ b => some b
  | _ => none

/-- C comparison v less-or-equal zero on a possibly-NaN float: every ordered
comparison with NaN is false. -/
def cfloat_le_zero : Option ℝ → Bool
  | none => false
  | some x => if x ≤ 0 then true else false

/-- C comparison v strictly below a constant on a possibly-NaN float. -/
def cfloat_lt_const : Option ℝ → ℝ → Bool
  | none, _ => false
  | some x, c => if x < c then true else false

/-- C comparison v strictly above a constant on a possibly-NaN float. -/
def cfloat_gt_const : Option ℝ → ℝ → Bool
  | none, _ => false
  | some x, c => if c < x then true else false

/-- C float multiplication on possibly-NaN values: NaN propagates. -/
def cfloat_mul : Option ℝ → Option ℝ → Option ℝ
  | some a, some b => some (a * b)
  | _, _ => none

/-- Per-channel tail of sensor_gain_calibration_loop, lines 728 to 743 of
sensor.c: the ratio of the high-gain average to the low-gain average, forced
to zero when either average compares less-or-equal zero.  Division where
either operand is NaN yields NaN. -/
def gain_ratio_calc (avg_high avg_low : Option ℝ) : Option ℝ :=
  if cfloat_le_zero avg_high || cfloat_le_zero avg_low then some 0
  else
    match avg_high, avg_low with
    | some h, some l => some (h / l)
    | _, _ => none

/-- Plausibility range and typical fallback constant of one gain tier; the
numeric values come from tsl2591.h, which is not under src, so they are kept
symbolic. -/
structure GainTier where
  min_v : ℝ
  max_v : ℝ
  typ : ℝ

/-- Range check applied to a measured gain multiplier in
sensor_gain_calibration, for example lines 117 to 120 of sensor.c: when the
value compares below the minimum or above the maximum it is replaced by the
typical constant, otherwise it is kept.  A NaN value fails both comparisons
and is kept unchanged. -/
def gain_range_check (min_v max_v typ : ℝ) (v : Option ℝ) : Option ℝ :=
  if cfloat_lt_const v min_v || cfloat_gt_const v max_v then some typ else v

/-- One channel of the successful gain calibration pipeline of
sensor_gain_calibration in sensor.c: the medium ratio is range checked, the
high ratio is multiplied by the checked medium multiplier and range checked,
the maximum ratio is multiplied by the checked high multiplier and range
checked; the resulting triple is what settings_set_cal_gain persists. -/
def sensor_gain_calibration_channel (med high maxt : GainTier)
    (ratio_med ratio_high ratio_max : Option ℝ) : Option ℝ × Option ℝ × Option ℝ :=
  let g_med := gain_range_check med.min_v med.max_v med.typ ratio_med
  let g_high := gain_range_check high.min_v high.max_v high.typ (cfloat_mul ratio_high g_med)
  let g_max := gain_range_check maxt.min_v maxt.max_v maxt.typ (cfloat_mul ratio_max g_high)
  (g_med, g_high, g_max)

/-- C float value with the classifications that matter to
sensor_apply_slope_calibration: NaN, positive and negative infinity, or a
finite real. -/
inductive CFloat
  | nan
  | pinf
  | ninf
  | fin (x : ℝ)

/-- Embedding of sensor_apply_slope_calibration from sensor.c.  The valid
flag is the result of settings_get_cal_slope; b0, b1, b2 are the stored
coefficients.  NaN, infinite and nonpositive readings, and readings under an
invalid calibration, pass through unchanged; otherwise the quadratic
log-space correction is applied. -/
def sensor_apply_slope_calibration (valid : Bool) (b0 b1 b2 : ℝ) : CFloat → CFloat
  | CFloat.nan => CFloat.nan
  | CFloat.pinf => CFloat.pinf
  | CFloat.ninf => CFloat.ninf
  | CFloat.fin x =>
      if x ≤ 0 then CFloat.fin x
      else if valid = false then CFloat.fin x
      else
        let l_reading := Real.logb 10 x
        let l_expected := b0 + b1 * l_reading + b2 * l_reading ^ 2
        CFloat.fin ((10 : ℝ) ^ l_expected)

/-- Predicate on a step-wedge table row: both the density cell and the
reading cell hold a number (itemValueAsFloat did not return NaN). -/
def bothPresent (p : Option ℝ × Option ℝ) : Bool :=
  p.1.isSome && p.2.isSome

/-- Rows after row 0 of the collection loop of onCalculateResults in
slopecalibrationdialog.cpp: each row with both cells present contributes
x as log10 of its reading and y as log10 of the row 0 reading divided by ten
to the power of its density; the loop stops at the first incomplete row. -/
def collect_rest (base : ℝ) : List (Option ℝ × Option ℝ) → List ℝ × List ℝ
  | [] => ([], [])
  | (some d, some m) :: rest =>
      let p := collect_rest base rest
      (Real.logb 10 m :: p.1, Real.logb 10 (base / (10 : ℝ) ^ d) :: p.2)
  | _ :: _ => ([], [])

/-- Row collection loop of onCalculateResults in slopecalibrationdialog.cpp:
row 0 must be complete and its density must lie between 0 and 0.001, and it
contributes log10 of its reading to both series; later rows are handled by
collect_rest with the row 0 reading as base. -/
def collect_rows : List (Option ℝ × Option ℝ) → List ℝ × List ℝ
  | [] => ([], [])
  | (some d, some m) :: rest =>
      if d < 0 ∨ d > 0.001 then ([], [])
      else
        let x := Real.logb 10 m
        let p := collect_rest m rest
        (x :: p.1, x :: p.2)
  | _ :: _ => ([], [])

/-- Power sum of the x series: the entry X i of the normal-equation data in
polyfit of slopecalibrationdialog.cpp. -/
def xPowSum (xs : List ℝ) (i : ℕ) : ℝ :=
  (xs.map fun x => x ^ i).sum

/-- Mixed power sum of the x and y series: the entry Y i of the
normal-equation data in polyfit of slopecalibrationdialog.cpp. -/
def xyPowSum (xs ys : List ℝ) (i : ℕ) : ℝ :=
  ((xs.zip ys).map fun p => p.1 ^ i * p.2).sum

/-- The augmented normal matrix B built by polyfit: columns 0 to 2 hold
X at index i plus j, column 3 holds Y at index i. -/
def normalMatrix (xs ys : List ℝ) : Fin 3 → Fin 4 → ℝ := fun i j =>
  if (j : ℕ) < 3 then xPowSum xs ((i : ℕ) + (j : ℕ)) else xyPowSum xs ys (i : ℕ)

/-- Row swap used by the partial pivoting step of gaussEliminationLS. -/
def gaussSwap (a : Fin 3 → Fin 4 → ℝ) (i k : Fin 3) : Fin 3 → Fin 4 → ℝ :=
  fun r c => if r = i then a k c else if r = k then a i c else a r c

/-- Partial pivoting comparison of gaussEliminationLS: swap rows i and k when
the absolute value of the diagonal element is smaller than that of the
candidate below it. -/
def gaussPivot (a : Fin 3 → Fin 4 → ℝ) (i k : Fin 3) : Fin 3 → Fin 4 → ℝ :=
  if |a i i| < |a k i| then gaussSwap a i k else a

/-- Elimination of row k against pivot row i in gaussEliminationLS. -/
def gaussElimRow (a : Fin 3 → Fin 4 → ℝ) (i k : Fin 3) : Fin 3 → Fin 4 → ℝ :=
  fun r c => if r = k then a k c - (a k i / a i i) * a i c else a r c

/-- Embedding of gaussEliminationLS from slopecalibrationdialog.cpp at its
only call site m = 3, n = 4, with the loops unrolled in source order:
for pivot column 0 compare rows 1 and 2 then eliminate rows 1 and 2, for
pivot column 1 compare row 2 then eliminate row 2, then back-substitute. -/
def gaussEliminationLS (a : Fin 3 → Fin 4 → ℝ) : ℝ × ℝ × ℝ :=
  let b := gaussElimRow (gaussPivot
    (gaussElimRow (gaussElimRow (gaussPivot (gaussPivot a 0 1) 0 2) 0 1) 0 2) 1 2) 1 2
  let x2 := b 2 3 / b 2 2
  let x1 := (b 1 3 - b 1 2 * x2) / b 1 1
  let x0 := (b 0 3 - b 0 1 * x1 - b 0 2 * x2) / b 0 0
  (x0, x1, x2)

/-- Embedding of polyfit from slopecalibrationdialog.cpp: the guard returning
a NaN triple on an empty or mismatched input is modelled as none, otherwise
the normal equations are solved by gaussEliminationLS. -/
def polyfit (xs ys : List ℝ) : Option (ℝ × ℝ × ℝ) :=
  if xs = [] ∨ xs.length ≠ ys.length then none
  else some (gaussEliminationLS (normalMatrix xs ys))

/-- Embedding of the computation of onCalculateResults in
slopecalibrationdialog.cpp: collect the usable rows, return no result when
fewer than five were collected, otherwise fit and return the three
coefficients. -/
def onCalculateResults (rows : List (Option ℝ × Option ℝ)) : Option (ℝ × ℝ × ℝ) :=
  let p := collect_rows rows
  if p.1.length < 5 then none else polyfit p.1 p.2

/-- Helper: the C comparison less-or-equal zero on an actual number is true
exactly when the number is nonpositive. -/
lemma cfloat_le_zero_some (x : ℝ) : cfloat_le_zero (some x) = true ↔ x ≤ 0 := by
  show (if x ≤ 0 then true else false) = true ↔ x ≤ 0
  split_ifs with h <;> simp [h]

/-- Helper: range check on an actual number always yields an actual number
inside the bounds, provided the typical constant is inside the bounds. -/
lemma gain_range_check_some_bounds (min_v max_v typ x : ℝ)
    (h1 : min_v ≤ typ) (h2 : typ ≤ max_v) :
    ∃ y, gain_range_check min_v max_v typ (some x) = some y ∧ min_v ≤ y ∧ y ≤ max_v := by
  unfold gain_range_check cfloat_lt_const cfloat_gt_const
  by_cases hlo : x < min_v
  · exact ⟨typ, by simp [hlo], h1, h2⟩
  · by_cases hhi : max_v < x
    · exact ⟨typ, by simp [hhi], h1, h2⟩
    · exact ⟨x, by simp [hlo, hhi], not_lt.mp hlo, not_lt.mp hhi⟩

/-- Claim C7: slope correction maps a strictly positive finite reading under a
valid calibration to ten to the power of the quadratic in its base-10 log,
and returns every other input (NaN, infinite, nonpositive, or any reading
under an invalid calibration) unchanged; it never fails. -/
theorem claim_C7_slope_correction :
    (∀ b0 b1 b2 x : ℝ, 0 < x →
      sensor_apply_slope_calibration true b0 b1 b2 (CFloat.fin x)
        = CFloat.fin ((10 : ℝ) ^ (b0 + b1 * Real.logb 10 x + b2 * Real.logb 10 x ^ 2)))
    ∧ (∀ (valid : Bool) (b0 b1 b2 x : ℝ), x ≤ 0 →
      sensor_apply_slope_calibration valid b0 b1 b2 (CFloat.fin x) = CFloat.fin x)
    ∧ (∀ (valid : Bool) (b0 b1 b2 : ℝ),
      sensor_apply_slope_calibration valid b0 b1 b2 CFloat.nan = CFloat.nan
      ∧ sensor_apply_slope_calibration valid b0 b1 b2 CFloat.pinf = CFloat.pinf
      ∧ sensor_apply_slope_calibration valid b0 b1 b2 CFloat.ninf = CFloat.ninf)
    ∧ (∀ b0 b1 b2 x : ℝ,
      sensor_apply_slope_calibration false b0 b1 b2 (CFloat.fin x) = CFloat.fin x) := by
  refine ⟨?_, ?_, ?_, ?_⟩
  · intro b0 b1 b2 x hx
    simp [sensor_apply_slope_calibration, not_le.mpr hx]
  · intro valid b0 b1 b2 x hx
    simp [sensor_apply_slope_calibration, hx]
  · intro valid b0 b1 b2
    exact ⟨rfl, rfl, rfl⟩
  · intro b0 b1 b2 x
    by_cases h : x ≤ 0 <;> simp [sensor_apply_slope_calibration, h]

/-- Witness for claim C7 at a concrete input. -/
theorem claim_C7_witness :
    sensor_apply_slope_calibration true 1 2 3 (CFloat.fin 10)
      = CFloat.fin ((10 : ℝ) ^ ((1 : ℝ) + 2 * Real.logb 10 10 + 3 * Real.logb 10 10 ^ 2)) :=
  claim_C7_slope_correction.1 1 2 3 10 (by norm_num)

/-- Claim C10: both stored last readings start out as the NaN sentinel, and a
reflection or transmission measurement that does not return ok leaves the
stored last reading exactly as it was. -/
theorem claim_C10_last_reading_frame :
    densitometer_reflection_d_init = none
    ∧ densitometer_transmission_d_init = none
    ∧ (∀ (idle_r : ℕ) (cal : ReflectionCal) (sensor : SensorReadOutcome) (last_d : Option ℝ),
        (densitometer_reflection_measure idle_r cal sensor last_d).1 ≠ DensitometerResult.ok →
        (densitometer_reflection_measure idle_r cal sensor last_d).2.1 = last_d)
    ∧ (∀ (idle_t : ℕ) (cal : TransmissionCal) (sensor : SensorReadOutcome) (last_d : Option ℝ),
        (densitometer_transmission_measure idle_t cal sensor last_d).1 ≠ DensitometerResult.ok →
        (densitometer_transmission_measure idle_t cal sensor last_d).2.1 = last_d) := by
  refine ⟨rfl, rfl, ?_, ?_⟩
  · intro idle_r cal sensor last_d h
    unfold densitometer_reflection_measure at h ⊢
    split_ifs at h ⊢
    · rfl
    · cases sensor with
      | fail => rfl
      | ok ch0 ch1 => exact absurd rfl h
  · intro idle_t cal sensor last_d h
    unfold densitometer_transmission_measure at h ⊢
    split_ifs at h ⊢
    · rfl
    · cases sensor with
      | fail => rfl
      | ok ch0 ch1 => exact absurd rfl h

/-- Witness for claim C10: a reflection measurement rejected for invalid
calibration leaves the initial NaN last reading in place. -/
theorem claim_C10_witness :
    (densitometer_reflection_measure 0 ⟨-1, 0, 0, 0⟩ SensorReadOutcome.fail none).2.1 = none :=
  claim_C10_last_reading_frame.2.2.1 0 ⟨-1, 0, 0, 0⟩ SensorReadOutcome.fail none
    (by
      have h : densitometer_reflection_measure 0 ⟨-1, 0, 0, 0⟩ SensorReadOutcome.fail none
          = (DensitometerResult.calError, none, []) := by
        norm_num [densitometer_reflection_measure]
      rw [h]
      simp)

/-- Claim C9: evaluation of the code at the failing input.  A reflection lo
point calibration with a valid density argument and a successful read
averaging 0.005 returns a calibration error whose light trace sets the
reflection light to measurement brightness 128 and never issues the idle
command, leaving the light controller at brightness 128, for every possible
value of the idle constant. -/
theorem claim_C9_light_left_on (idle_r : ℕ) :
    densitometer_calibrate_reflection_lo idle_r 1 (SensorReadOutcome.ok 0.005 0)
      = (DensitometerResult.calError, none,
          [LightCmd.reflection 128, LightCmd.transmission 0])
    ∧ light_state_after (0, 0)
        (densitometer_calibrate_reflection_lo idle_r 1 (SensorReadOutcome.ok 0.005 0)).2.2
      = (128, 0) := by
  have h : densitometer_calibrate_reflection_lo idle_r 1 (SensorReadOutcome.ok 0.005 0)
      = (DensitometerResult.calError, none,
          [LightCmd.reflection 128, LightCmd.transmission 0]) := by
    norm_num [densitometer_calibrate_reflection_lo, clamped_diff]
  exact ⟨h, by rw [h]; rfl⟩

/-- Claim C8 counterexample: the transmission hi helper with a valid density
and a successful read averaging 0.003 rejects the reading with the
calibration error code, not the sensor error code the claim names, and
persists nothing. -/
theorem claim_C8_counterexample :
    (densitometer_calibrate_transmission_hi 0 2 (SensorReadOutcome.ok 0.003 0)).1
      = DensitometerResult.calError
    ∧ (densitometer_calibrate_transmission_hi 0 2 (SensorReadOutcome.ok 0.003 0)).1
      ≠ DensitometerResult.sensorError
    ∧ (densitometer_calibrate_transmission_hi 0 2 (SensorReadOutcome.ok 0.003 0)).2.1
      = none := by
  have h : densitometer_calibrate_transmission_hi 0 2 (SensorReadOutcome.ok 0.003 0)
      = (DensitometerResult.calError, none,
          [LightCmd.reflection 0, LightCmd.transmission 128]) := by
    norm_num [densitometer_calibrate_transmission_hi, clamped_diff]
  rw [h]
  exact ⟨rfl, by simp, rfl⟩

/-- Claim C8 as amended: every point-calibration helper, given an in-range
density argument and a successful read whose averaged value has magnitude
below 0.01, rejects the reading as a calibration error and persists
nothing. -/
theorem claim_C8_low_reading_rejection (idle_r idle_t : ℕ) (d ch0 ch1 : ℝ)
    (hmag : |clamped_diff ch0 ch1| < 0.01) :
    (0 ≤ d → d ≤ 2.5 →
      (densitometer_calibrate_reflection_lo idle_r d (SensorReadOutcome.ok ch0 ch1)).1
          = DensitometerResult.calError
      ∧ (densitometer_calibrate_reflection_lo idle_r d (SensorReadOutcome.ok ch0 ch1)).2.1
          = none)
    ∧ (0 ≤ d → d ≤ 2.5 →
      (densitometer_calibrate_reflection_hi idle_r d (SensorReadOutcome.ok ch0 ch1)).1
          = DensitometerResult.calError
      ∧ (densitometer_calibrate_reflection_hi idle_r d (SensorReadOutcome.ok ch0 ch1)).2.1
          = none)
    ∧ ((densitometer_calibrate_transmission_zero idle_t (SensorReadOutcome.ok ch0 ch1)).1
          = DensitometerResult.calError
      ∧ (densitometer_calibrate_transmission_zero idle_t (SensorReadOutcome.ok ch0 ch1)).2.1
          = none)
    ∧ (0 ≤ d → d ≤ 4 →
      (densitometer_calibrate_transmission_hi idle_t d (SensorReadOutcome.ok ch0 ch1)).1
          = DensitometerResult.calError
      ∧ (densitometer_calibrate_transmission_hi idle_t d (SensorReadOutcome.ok ch0 ch1)).2.1
          = none) := by
  have hv : clamped_diff ch0 ch1 < 0.01 := lt_of_le_of_lt (le_abs_self _) hmag
  refine ⟨?_, ?_, ?_, ?_⟩
  · intro h0 h1
    have hr : ¬(d < 0 ∨ d > 2.5) := by push_neg; exact ⟨h0, h1⟩
    unfold densitometer_calibrate_reflection_lo
    rw [if_neg hr]
    simp [hv]
  · intro h0 h1
    have hr : ¬(d < 0 ∨ d > 2.5) := by push_neg; exact ⟨h0, h1⟩
    unfold densitometer_calibrate_reflection_hi
    rw [if_neg hr]
    simp [hv]
  · unfold densitometer_calibrate_transmission_zero
    simp [hv]
  · intro h0 h1
    have hr : ¬(d < 0 ∨ d > 4) := by push_neg; exact ⟨h0, h1⟩
    unfold densitometer_calibrate_transmission_hi
    rw [if_neg hr]
    simp [hv]

/-- Witness for the amended claim C8 at a concrete input. -/
theorem claim_C8_witness :
    (densitometer_calibrate_reflection_lo 0 1 (SensorReadOutcome.ok 0.004 0)).1
      = DensitometerResult.calError
    ∧ (densitometer_calibrate_reflection_lo 0 1 (SensorReadOutcome.ok 0.004 0)).2.1 = none :=
  (claim_C8_low_reading_rejection 0 0 1 0.004 0 (by norm_num [clamped_diff, abs_lt])).1
    (by norm_num) (by norm_num)

/-- Claim C4 as amended: when both averages are actual numbers the per-channel
gain ratio is zero if either is nonpositive and the quotient otherwise, and
any numeric ratio the computation produces is nonnegative; a NaN average
(which a saturated read loop reports alongside a success status) instead
propagates to a NaN ratio. -/
theorem claim_C4_gain_ratio_spec :
    (∀ a b : ℝ, a ≤ 0 ∨ b ≤ 0 → gain_ratio_calc (some a) (some b) = some 0)
    ∧ (∀ a b : ℝ, 0 < a → 0 < b → gain_ratio_calc (some a) (some b) = some (a / b))
    ∧ (∀ (oh ol : Option ℝ) (x : ℝ), gain_ratio_calc oh ol = some x → 0 ≤ x) := by
  refine ⟨?_, ?_, ?_⟩
  · intro a b hab
    have h1 : (cfloat_le_zero (some a) || cfloat_le_zero (some b)) = true := by
      rcases hab with h | h
      · exact Bool.or_eq_true_iff.mpr (Or.inl ((cfloat_le_zero_some a).mpr h))
      · exact Bool.or_eq_true_iff.mpr (Or.inr ((cfloat_le_zero_some b).mpr h))
    unfold gain_ratio_calc
    simp [h1]
  · intro a b ha hb
    have h1 : (cfloat_le_zero (some a) || cfloat_le_zero (some b)) = false := by
      have ha1 : cfloat_le_zero (some a) = false := by
        cases hx : cfloat_le_zero (some a) with
        | false => rfl
        | true => exact absurd ((cfloat_le_zero_some a).mp hx) (not_le.mpr ha)
      have hb1 : cfloat_le_zero (some b) = false := by
        cases hx : cfloat_le_zero (some b) with
        | false => rfl
        | true => exact absurd ((cfloat_le_zero_some b).mp hx) (not_le.mpr hb)
      simp [ha1, hb1]
    unfold gain_ratio_calc
    simp [h1]
  · intro oh ol x hx
    unfold gain_ratio_calc at hx
    by_cases hg : (cfloat_le_zero oh || cfloat_le_zero ol) = true
    · rw [if_pos hg] at hx
      cases Option.some.inj hx
      exact le_refl 0
    · rw [if_neg hg] at hx
      have hg2 := Bool.or_eq_false_iff.mp (Bool.not_eq_true _ |>.mp hg)
      cases oh with
      | none => simp at hx
      | some h =>
        cases ol with
        | none => simp at hx
        | some l =>
          have hh : 0 < h := by
            by_contra hc
            have := (cfloat_le_zero_some h).mpr (not_lt.mp hc)
            rw [this] at hg2
            exact absurd hg2.1 (by simp)
          have hl : 0 < l := by
            by_contra hc
            have := (cfloat_le_zero_some l).mpr (not_lt.mp hc)
            rw [this] at hg2
            exact absurd hg2.2 (by simp)
          cases Option.some.inj hx
          exact div_nonneg hh.le hl.le

/-- Claim C4 counterexample: a read loop over one saturated reading completes
with the success status and NaN averages; feeding that channel 0 average into
the ratio computation with a positive low-gain average yields NaN, not zero,
so the ratio is not never-NaN. -/
theorem claim_C4_counterexample :
    sensor_raw_read_loop 37888 65535 1 [⟨65535, 0, TslTime.t200⟩] = RawReadOutcome.saturatedNaN
    ∧ gain_ratio_calc
        (raw_read_avg0 (sensor_raw_read_loop 37888 65535 1 [⟨65535, 0, TslTime.t200⟩]))
        (some 1) = none
    ∧ (none : Option ℝ) ≠ some (0 : ℝ) := by
  have h1 : sensor_raw_read_loop 37888 65535 1 [⟨65535, 0, TslTime.t200⟩]
      = RawReadOutcome.saturatedNaN := rfl
  refine ⟨h1, ?_, by simp⟩
  rw [h1]
  norm_num [gain_ratio_calc, raw_read_avg0, cfloat_le_zero]

/-- Witness for the amended claim C4 at concrete inputs. -/
theorem claim_C4_witness :
    gain_ratio_calc (some (-1 : ℝ)) (some 2) = some 0
    ∧ gain_ratio_calc (some (4 : ℝ)) (some 2) = some (4 / 2) :=
  ⟨claim_C4_gain_ratio_spec.1 (-1) 2 (Or.inl (by norm_num)),
   claim_C4_gain_ratio_spec.2.1 4 2 (by norm_num) (by norm_num)⟩

/-- Claim C5 as amended: when the three measured per-channel ratios are
actual numbers, the persisted medium, high and maximum multipliers are all
actual numbers lying within their plausibility bounds, each out-of-range
product having been replaced by the typical constant, and no input makes the
pipeline fail; a NaN ratio, however, fails both range comparisons and is
persisted unchanged. -/
theorem claim_C5_gain_table_bounds (med high maxt : GainTier)
    (hm1 : med.min_v ≤ med.typ) (hm2 : med.typ ≤ med.max_v)
    (hh1 : high.min_v ≤ high.typ) (hh2 : high.typ ≤ high.max_v)
    (hx1 : maxt.min_v ≤ maxt.typ) (hx2 : maxt.typ ≤ maxt.max_v)
    (r1 r2 r3 : ℝ) :
    ∃ g1 g2 g3 : ℝ,
      sensor_gain_calibration_channel med high maxt (some r1) (some r2) (some r3)
        = (some g1, some g2, some g3)
      ∧ med.min_v ≤ g1 ∧ g1 ≤ med.max_v
      ∧ high.min_v ≤ g2 ∧ g2 ≤ high.max_v
      ∧ maxt.min_v ≤ g3 ∧ g3 ≤ maxt.max_v := by
  obtain ⟨g1, hg1, hg1a, hg1b⟩ :=
    gain_range_check_some_bounds med.min_v med.max_v med.typ r1 hm1 hm2
  obtain ⟨g2, hg2, hg2a, hg2b⟩ :=
    gain_range_check_some_bounds high.min_v high.max_v high.typ (r2 * g1) hh1 hh2
  obtain ⟨g3, hg3, hg3a, hg3b⟩ :=
    gain_range_check_some_bounds maxt.min_v maxt.max_v maxt.typ (r3 * g2) hx1 hx2
  refine ⟨g1, g2, g3, ?_, hg1a, hg1b, hg2a, hg2b, hg3a, hg3b⟩
  simp only [sensor_gain_calibration_channel]
  rw [hg1, show cfloat_mul (some r2) (some g1) = some (r2 * g1) from rfl, hg2,
    show cfloat_mul (some r3) (some g2) = some (r3 * g2) from rfl, hg3]

/-- Claim C5 counterexample: a NaN medium ratio (as produced by a saturated
but status-ok read loop) fails both range comparisons, is not replaced by the
typical constant, and is persisted as NaN, which is not a value within the
plausibility bounds. -/
theorem claim_C5_counterexample :
    gain_range_check 22 27 24.5 (gain_ratio_calc none (some 2)) = none
    ∧ gain_range_check 22 27 24.5 (gain_ratio_calc none (some 2)) ≠ some (24.5 : ℝ)
    ∧ (gain_range_check 22 27 24.5 (gain_ratio_calc none (some 2))).isSome = false := by
  have h : gain_ratio_calc none (some 2) = none := by
    norm_num [gain_ratio_calc, cfloat_le_zero]
  have h2 : gain_range_check 22 27 24.5 (none : Option ℝ) = none := rfl
  rw [h, h2]
  exact ⟨rfl, by simp, rfl⟩

/-- Witness for the amended claim C5 at concrete inputs. -/
theorem claim_C5_witness :
    ∃ g1 g2 g3 : ℝ,
      sensor_gain_calibration_channel ⟨22, 27, 24.5⟩ ⟨360, 440, 400⟩ ⟨8500, 9900, 9200⟩
          (some 100) (some 17) (some 23)
        = (some g1, some g2, some g3)
      ∧ (22 : ℝ) ≤ g1 ∧ g1 ≤ 27
      ∧ (360 : ℝ) ≤ g2 ∧ g2 ≤ 440
      ∧ (8500 : ℝ) ≤ g3 ∧ g3 ≤ 9900 :=
  claim_C5_gain_table_bounds ⟨22, 27, 24.5⟩ ⟨360, 440, 400⟩ ⟨8500, 9900, 9200⟩
    (by norm_num) (by norm_num) (by norm_num) (by norm_num) (by norm_num) (by norm_num)
    100 17 23

/-- Helper: base-10 log of one thousandth is minus three. -/
lemma logb10_thousandth : Real.logb 10 ((1 : ℝ) / 1000) = -3 := by
  have h1 : ((1 : ℝ) / 1000) = ((10 : ℝ) ^ (3 : ℕ))⁻¹ := by norm_num
  rw [h1, Real.logb_inv, Real.logb_pow, Real.logb_self_eq_one (by norm_num : (1 : ℝ) < 10)]
  norm_num

/-- Claim C2: a transmission measurement under valid calibration values
returns ok and stores the density given by the self-calibrating formula, the
stored formula agrees with the claim formula, and the concrete scenario with
zero reading one million, hi point density 3 at reading 1000, and live
reading 1000 yields exactly density 3. -/
theorem claim_C2_transmission_density (idle_t : ℕ) (cal : TransmissionCal)
    (ch0 ch1 : ℝ) (last_d : Option ℝ)
    (h1 : 0 < cal.zero_value) (h2 : 0 < cal.hi_d) (h3 : 0 < cal.hi_value)
    (h4 : cal.hi_value < cal.zero_value) :
    densitometer_transmission_measure idle_t cal (SensorReadOutcome.ok ch0 ch1) last_d
      = (DensitometerResult.ok, some (transmission_density cal (clamped_diff ch0 ch1)),
          [LightCmd.reflection 0, LightCmd.transmission 128, LightCmd.transmission idle_t])
    ∧ transmission_density cal (clamped_diff ch0 ch1)
        = (-Real.logb 10 (clamped_diff ch0 ch1 / cal.zero_value))
          * (cal.hi_d / (-Real.logb 10 (cal.hi_value / cal.zero_value)))
    ∧ transmission_density ⟨1000000, 3, 1000⟩ 1000 = 3 := by
  refine ⟨?_, ?_, ?_⟩
  · have hv : ¬(cal.zero_value ≤ 0 ∨ cal.hi_d ≤ 0 ∨ cal.hi_value ≤ 0
        ∨ cal.hi_value ≥ cal.zero_value) := by
      push_neg
      exact ⟨h1, h2, h3, h4⟩
    unfold densitometer_transmission_measure
    rw [if_neg hv]
  · unfold transmission_density
    ring
  · unfold transmission_density
    norm_num [logb10_thousandth]

/-- Witness for claim C2 at the concrete scenario inputs. -/
theorem claim_C2_witness :
    densitometer_transmission_measure 0 ⟨1000000, 3, 1000⟩ (SensorReadOutcome.ok 1000 0) none
      = (DensitometerResult.ok,
          some (transmission_density ⟨1000000, 3, 1000⟩ (clamped_diff 1000 0)),
          [LightCmd.reflection 0, LightCmd.transmission 128, LightCmd.transmission 0]) :=
  (claim_C2_transmission_density 0 ⟨1000000, 3, 1000⟩ 1000 0 none
    (by norm_num) (by norm_num) (by norm_num) (by norm_num)).1

/-- Claim C1 counterexample: with calibration lo density 0 at reading 1 and
hi density 1 at reading 0, all of the claim stated preconditions hold
(hi density above lo density which is at least 0, lo reading at least 0, hi
reading below lo reading), the clamped measured value of a successful read
of two zero channels equals the hi reading, the measurement returns ok, yet
the computed density is 0 and not the hi density 1. -/
theorem claim_C1_counterexample :
    (0 : ℝ) ≤ (⟨0, 1, 1, 0⟩ : ReflectionCal).lo_d
    ∧ (⟨0, 1, 1, 0⟩ : ReflectionCal).lo_d < (⟨0, 1, 1, 0⟩ : ReflectionCal).hi_d
    ∧ (0 : ℝ) ≤ (⟨0, 1, 1, 0⟩ : ReflectionCal).lo_value
    ∧ (⟨0, 1, 1, 0⟩ : ReflectionCal).hi_value < (⟨0, 1, 1, 0⟩ : ReflectionCal).lo_value
    ∧ clamped_diff 0 0 = (⟨0, 1, 1, 0⟩ : ReflectionCal).hi_value
    ∧ (densitometer_reflection_measure 0 ⟨0, 1, 1, 0⟩ (SensorReadOutcome.ok 0 0) none).1
        = DensitometerResult.ok
    ∧ (densitometer_reflection_measure 0 ⟨0, 1, 1, 0⟩ (SensorReadOutcome.ok 0 0) none).2.1
        = some (reflection_density ⟨0, 1, 1, 0⟩ (clamped_diff 0 0))
    ∧ reflection_density ⟨0, 1, 1, 0⟩ (clamped_diff 0 0) = 0
    ∧ (0 : ℝ) ≠ (⟨0, 1, 1, 0⟩ : ReflectionCal).hi_d := by
  have hcd : clamped_diff (0 : ℝ) 0 = 0 := by
    norm_num [clamped_diff]
  have hd : reflection_density ⟨0, 1, 1, 0⟩ (clamped_diff 0 0) = 0 := by
    rw [hcd]
    unfold reflection_density
    simp [Real.logb_zero, Real.logb_one]
  have hm : densitometer_reflection_measure 0 ⟨0, 1, 1, 0⟩ (SensorReadOutcome.ok 0 0) none
      = (DensitometerResult.ok, some (reflection_density ⟨0, 1, 1, 0⟩ (clamped_diff 0 0)),
          [LightCmd.reflection 128, LightCmd.transmission 0, LightCmd.reflection 0]) := by
    unfold densitometer_reflection_measure
    rw [if_neg (by norm_num)]
  refine ⟨by norm_num, by norm_num, by norm_num, by norm_num, by rw [hcd], ?_, ?_, hd,
    by norm_num⟩
  · rw [hm]
  · rw [hm]

/-- Claim C1 as amended: under the stated calibration preconditions
strengthened by a strictly positive hi reading, a reflection measurement with
a successful read returns ok and stores the density given by the slope
formula of the claim, a clamped measured value equal to the lo reading yields
exactly the lo density, and one equal to the hi reading yields exactly the hi
density. -/
theorem claim_C1_reflection_density (idle_r : ℕ) (cal : ReflectionCal)
    (ch0 ch1 : ℝ) (last_d : Option ℝ)
    (h1 : 0 ≤ cal.lo_d) (h2 : cal.lo_d < cal.hi_d)
    (h3 : 0 < cal.hi_value) (h4 : cal.hi_value < cal.lo_value) :
    densitometer_reflection_measure idle_r cal (SensorReadOutcome.ok ch0 ch1) last_d
      = (DensitometerResult.ok, some (reflection_density cal (clamped_diff ch0 ch1)),
          [LightCmd.reflection 128, LightCmd.transmission 0, LightCmd.reflection idle_r])
    ∧ reflection_density cal (clamped_diff ch0 ch1)
        = (cal.hi_d - cal.lo_d)
            / (Real.logb 10 cal.hi_value - Real.logb 10 cal.lo_value)
          * (Real.logb 10 (clamped_diff ch0 ch1) - Real.logb 10 cal.lo_value)
          + cal.lo_d
    ∧ (clamped_diff ch0 ch1 = cal.lo_value →
        reflection_density cal (clamped_diff ch0 ch1) = cal.lo_d)
    ∧ (clamped_diff ch0 ch1 = cal.hi_value →
        reflection_density cal (clamped_diff ch0 ch1) = cal.hi_d) := by
  have hlt : Real.logb 10 cal.hi_value < Real.logb 10 cal.lo_value :=
    Real.logb_lt_logb (by norm_num) h3 h4
  have hne : Real.logb 10 cal.hi_value - Real.logb 10 cal.lo_value ≠ 0 :=
    sub_ne_zero.mpr (ne_of_lt hlt)
  refine ⟨?_, ?_, ?_, ?_⟩
  · have hv : ¬(cal.lo_d < 0 ∨ cal.hi_d ≤ cal.lo_d ∨ cal.lo_value < 0
        ∨ cal.hi_value ≥ cal.lo_value) := by
      push_neg
      exact ⟨not_lt.mp (not_lt.mpr h1), h2, le_trans h3.le h4.le, h4⟩
    unfold densitometer_reflection_measure
    rw [if_neg hv]
  · unfold reflection_density
    ring
  · intro hlo
    unfold reflection_density
    rw [hlo]
    ring
  · intro hhi
    unfold reflection_density
    rw [hhi]
    field_simp

/-- Witness for the amended claim C1 at the concrete scenario inputs from the
specification: lo point density 0 at reading 500000, hi point density 2 at
reading 5000, with a successful read. -/
theorem claim_C1_witness :
    densitometer_reflection_measure 0 ⟨0, 500000, 2, 5000⟩ (SensorReadOutcome.ok 50000 0) none
      = (DensitometerResult.ok,
          some (reflection_density ⟨0, 500000, 2, 5000⟩ (clamped_diff 50000 0)),
          [LightCmd.reflection 128, LightCmd.transmission 0, LightCmd.reflection 0]) :=
  (claim_C1_reflection_density 0 ⟨0, 500000, 2, 5000⟩ 50000 0 none
    (by norm_num) (by norm_num) (by norm_num) (by norm_num)).1

/-- Helper: when no reading among the next n is saturated, the read loop body
accumulates the natural logs of the first n readings onto the running sums
and averages by the total count. -/
lemma sensor_raw_read_go_no_sat (a d total : ℕ) :
    ∀ (n : ℕ) (rs : List SensorReading) (s0 s1 : ℝ),
      n ≤ rs.length →
      (∀ r ∈ rs.take n, sensor_is_reading_saturated a d r = false) →
      sensor_raw_read_go a d total n rs s0 s1
        = RawReadOutcome.avg
            (Real.exp ((s0 + ((rs.take n).map fun r => Real.log r.ch0_val).sum) / total))
            (Real.exp ((s1 + ((rs.take n).map fun r => Real.log r.ch1_val).sum) / total)) := by
  intro n
  induction n with
  | zero =>
    intro rs s0 s1 _ _
    simp [sensor_raw_read_go]
  | succ n ih =>
    intro rs s0 s1 hlen hsat
    cases rs with
    | nil => simp at hlen
    | cons r rest =>
      have hr : sensor_is_reading_saturated a d r = false := hsat r (by simp)
      have hlen2 : n ≤ rest.length := by simpa using hlen
      have hsat2 : ∀ x ∈ rest.take n, sensor_is_reading_saturated a d x = false :=
        fun x hx => hsat x (by simp [hx])
      simp only [sensor_raw_read_go, hr]
      rw [if_neg (by simp)]
      rw [ih rest (s0 + Real.log r.ch0_val) (s1 + Real.log r.ch1_val) hlen2 hsat2]
      simp only [List.take_succ_cons, List.map_cons, List.sum_cons]
      congr 1
      · congr 1
        ring
      · congr 1
        ring

/-- Helper: the moment the read loop body meets a saturated reading, after
any run of unsaturated ones, it returns the NaN marker regardless of the
accumulated sums. -/
lemma sensor_raw_read_go_sat (a d total : ℕ) :
    ∀ (pre : List SensorReading) (n : ℕ) (r : SensorReading) (rest : List SensorReading)
      (s0 s1 : ℝ),
      pre.length < n →
      (∀ p ∈ pre, sensor_is_reading_saturated a d p = false) →
      sensor_is_reading_saturated a d r = true →
      sensor_raw_read_go a d total n (pre ++ r :: rest) s0 s1
        = RawReadOutcome.saturatedNaN := by
  intro pre
  induction pre with
  | nil =>
    intro n r rest s0 s1 hlen hpre hr
    cases n with
    | zero => simp at hlen
    | succ n =>
      simp [sensor_raw_read_go, hr]
  | cons p pre ih =>
    intro n r rest s0 s1 hlen hpre hr
    cases n with
    | zero => simp at hlen
    | succ n =>
      have hp : sensor_is_reading_saturated a d p = false := hpre p (by simp)
      simp only [List.cons_append, sensor_raw_read_go, hp]
      rw [if_neg (by simp)]
      exact ih n r rest _ _ (by simpa using hlen) (fun x hx => hpre x (by simp [hx])) hr

/-- Claim C3: for a read loop over at least one reading, a run with no
saturated reading returns per channel the exponential of the mean of the
natural logs of the raw values (the geometric mean as computed by
sum-of-logs); a run meeting a saturated reading stops there, discards the
partial sums, and returns the NaN marker for both channels; and a reading is
saturated exactly when either channel is at or above the applicable ceiling,
which is the analog ceiling for the 100 ms integration setting and the
digital ceiling for every other setting. -/
theorem claim_C3_read_average (analog_sat digital_sat count : ℕ)
    (readings : List SensorReading) (hcount : 1 ≤ count) :
    (count ≤ readings.length →
      (∀ r ∈ readings.take count,
        sensor_is_reading_saturated analog_sat digital_sat r = false) →
      sensor_raw_read_loop analog_sat digital_sat count readings
        = RawReadOutcome.avg
            (Real.exp ((((readings.take count).map fun r => Real.log r.ch0_val).sum) / count))
            (Real.exp ((((readings.take count).map fun r => Real.log r.ch1_val).sum) / count)))
    ∧ (∀ (pre : List SensorReading) (r : SensorReading) (rest : List SensorReading),
        readings = pre ++ r :: rest → pre.length < count →
        (∀ p ∈ pre, sensor_is_reading_saturated analog_sat digital_sat p = false) →
        sensor_is_reading_saturated analog_sat digital_sat r = true →
        sensor_raw_read_loop analog_sat digital_sat count readings
          = RawReadOutcome.saturatedNaN)
    ∧ (∀ r : SensorReading,
        sensor_is_reading_saturated analog_sat digital_sat r = true
          ↔ (saturation_limit analog_sat digital_sat r.time ≤ r.ch0_val
              ∨ saturation_limit analog_sat digital_sat r.time ≤ r.ch1_val))
    ∧ (∀ t : TslTime,
        saturation_limit analog_sat digital_sat t
          = if t = TslTime.t100 then analog_sat else digital_sat) := by
  have hc0 : ¬(count = 0) := by omega
  refine ⟨?_, ?_, ?_, ?_⟩
  · intro hlen hsat
    unfold sensor_raw_read_loop
    rw [if_neg hc0,
      sensor_raw_read_go_no_sat analog_sat digital_sat count count readings 0 0 hlen hsat]
    simp only [zero_add]
  · intro pre r rest heq hlen hpre hr
    unfold sensor_raw_read_loop
    rw [if_neg hc0, heq]
    exact sensor_raw_read_go_sat analog_sat digital_sat count pre count r rest 0 0 hlen hpre hr
  · intro r
    simp [sensor_is_reading_saturated]
  · intro t
    rfl

/-- Witness for claim C3 at a concrete two-cycle unsaturated run. -/
theorem claim_C3_witness :
    sensor_raw_read_loop 37888 65535 2 [⟨100, 50, TslTime.t200⟩, ⟨200, 60, TslTime.t200⟩]
      = RawReadOutcome.avg
          (Real.exp (((([⟨100, 50, TslTime.t200⟩, ⟨200, 60, TslTime.t200⟩]
              : List SensorReading).take 2).map fun r => Real.log r.ch0_val).sum
            / ((2 : ℕ) : ℝ)))
          (Real.exp (((([⟨100, 50, TslTime.t200⟩, ⟨200, 60, TslTime.t200⟩]
              : List SensorReading).take 2).map fun r => Real.log r.ch1_val).sum
            / ((2 : ℕ) : ℝ))) :=
  (claim_C3_read_average 37888 65535 2 [⟨100, 50, TslTime.t200⟩, ⟨200, 60, TslTime.t200⟩]
    (by norm_num)).1 (by simp) (by decide)

/-- Helper: the rows consumed after row 0 are exactly the maximal prefix in
which both cells are present, and they contribute the x and y values of the
claim. -/
lemma collect_rest_eq (base : ℝ) :
    ∀ rows : List (Option ℝ × Option ℝ),
      collect_rest base rows
        = ((rows.takeWhile bothPresent).map fun p => Real.logb 10 (p.2.getD 0),
           (rows.takeWhile bothPresent).map fun p =>
             Real.logb 10 (base / (10 : ℝ) ^ p.1.getD 0)) := by
  intro rows
  induction rows with
  | nil => rfl
  | cons p rest ih =>
    rcases p with ⟨od, om⟩
    cases od with
    | none =>
      rw [show collect_rest base ((none, om) :: rest) = ([], []) from rfl]
      simp [List.takeWhile_cons, show bothPresent (none, om) = false from rfl]
    | some d =>
      cases om with
      | none =>
        rw [show collect_rest base ((some d, none) :: rest) = ([], []) from rfl]
        simp [List.takeWhile_cons, bothPresent]
      | some m =>
        rw [show collect_rest base ((some d, some m) :: rest)
            = (Real.logb 10 m :: (collect_rest base rest).1,
               Real.logb 10 (base / (10 : ℝ) ^ d) :: (collect_rest base rest).2) from rfl]
        simp [List.takeWhile_cons, bothPresent, ih]

/-- Helper: row 0 with both cells present and an in-range density anchors
both series with the log of its reading. -/
lemma collect_rows_cons_good (d m : ℝ) (rest : List (Option ℝ × Option ℝ))
    (hd : ¬(d < 0 ∨ d > 0.001)) :
    collect_rows ((some d, some m) :: rest)
      = (Real.logb 10 m :: (collect_rest m rest).1,
         Real.logb 10 m :: (collect_rest m rest).2) := by
  have h : collect_rows ((some d, some m) :: rest)
      = if d < 0 ∨ d > 0.001 then ([], [])
        else (Real.logb 10 m :: (collect_rest m rest).1,
              Real.logb 10 m :: (collect_rest m rest).2) := rfl
  rw [h, if_neg hd]

/-- Helper: an out-of-range row 0 density empties the collected series. -/
lemma collect_rows_cons_bad (d m : ℝ) (rest : List (Option ℝ × Option ℝ))
    (hd : d < 0 ∨ d > 0.001) :
    collect_rows ((some d, some m) :: rest) = ([], []) := by
  have h : collect_rows ((some d, some m) :: rest)
      = if d < 0 ∨ d > 0.001 then ([], [])
        else (Real.logb 10 m :: (collect_rest m rest).1,
              Real.logb 10 m :: (collect_rest m rest).2) := rfl
  rw [h, if_pos hd]

/-- Helper: the two collected series always have equal length. -/
lemma collect_rows_length_eq (rows : List (Option ℝ × Option ℝ)) :
    (collect_rows rows).1.length = (collect_rows rows).2.length := by
  cases rows with
  | nil => rfl
  | cons p rest =>
    rcases p with ⟨od, om⟩
    cases od with
    | none => rfl
    | some d =>
      cases om with
      | none => rfl
      | some m =>
        by_cases hd : d < 0 ∨ d > 0.001
        · rw [collect_rows_cons_bad d m rest hd]
        · rw [collect_rows_cons_good d m rest hd]
          simp [collect_rest_eq]

/-- Claim C6: the curve fit consumes row 0 (which must have both cells
present and density between 0 and 0.001, anchoring both series with the log
of its reading) followed by exactly the maximal prefix of rows with both
cells present, each contributing x as the log of its reading and y as the
log of the row 0 reading divided by ten to the power of its density; an
out-of-range row 0 density yields no result, fewer than five collected rows
yield no result, five or more always yield the three coefficients of the
normal-equation solution; and the computation is a function of the rows
alone, so identical input gives identical output. -/
theorem claim_C6_curve_fit (rows : List (Option ℝ × Option ℝ)) :
    (∀ (d0 m0 : ℝ) (rest : List (Option ℝ × Option ℝ)),
      rows = (some d0, some m0) :: rest → ¬(d0 < 0 ∨ d0 > 0.001) →
      collect_rows rows
        = (Real.logb 10 m0
             :: ((rest.takeWhile bothPresent).map fun p => Real.logb 10 (p.2.getD 0)),
           Real.logb 10 m0
             :: ((rest.takeWhile bothPresent).map fun p =>
                  Real.logb 10 (m0 / (10 : ℝ) ^ p.1.getD 0))))
    ∧ (∀ (d0 m0 : ℝ) (rest : List (Option ℝ × Option ℝ)),
      rows = (some d0, some m0) :: rest → (d0 < 0 ∨ d0 > 0.001) →
      onCalculateResults rows = none)
    ∧ ((collect_rows rows).1.length < 5 → onCalculateResults rows = none)
    ∧ (5 ≤ (collect_rows rows).1.length →
      onCalculateResults rows
        = some (gaussEliminationLS
            (normalMatrix (collect_rows rows).1 (collect_rows rows).2)))
    ∧ onCalculateResults rows = onCalculateResults rows := by
  refine ⟨?_, ?_, ?_, ?_, rfl⟩
  · intro d0 m0 rest heq hd
    rw [heq, collect_rows_cons_good d0 m0 rest hd, collect_rest_eq]
  · intro d0 m0 rest heq hd
    rw [heq]
    unfold onCalculateResults
    rw [collect_rows_cons_bad d0 m0 rest hd]
    norm_num
  · intro hlen
    unfold onCalculateResults
    rw [if_pos hlen]
  · intro hlen
    unfold onCalculateResults
    rw [if_neg (not_lt.mpr hlen)]
    unfold polyfit
    rw [if_neg]
    push_neg
    constructor
    · intro hnil
      rw [hnil] at hlen
      simp at hlen
    · exact collect_rows_length_eq rows

/-- Witness for claim C6 at the five-row log-linear step wedge from the
specification scenarios: five usable rows produce the fitted coefficient
triple. -/
theorem claim_C6_witness :
    onCalculateResults
        [(some 0, some 1000000), (some 0.3, some 501187), (some 0.6, some 251189),
         (some 1, some 100000), (some 1.5, some 31623)]
      = some (gaussEliminationLS (normalMatrix
          (collect_rows
            [(some 0, some 1000000), (some 0.3, some 501187), (some 0.6, some 251189),
             (some 1, some 100000), (some 1.5, some 31623)]).1
          (collect_rows
            [(some 0, some 1000000), (some 0.3, some 501187), (some 0.6, some 251189),
             (some 1, some 100000), (some 1.5, some 31623)]).2)) :=
  (claim_C6_curve_fit
    [(some 0, some 1000000), (some 0.3, some 501187), (some 0.6, some 251189),
     (some 1, some 100000), (some 1.5, some 31623)]).2.2.2.1
    (by norm_num [collect_rows, collect_rest])
